import Mathlib

/-!
Verification of `djcelery_transactions.py` (django-celery-transactions).

The module defers Celery task dispatch until the surrounding Django
transaction resolves.  Its state is a thread-local list
`_thread_data.task_queue`, initialised to `[]` only on the thread that
imports the module.  `PostCommitTask.apply_async` pops the
`after_transaction` keyword argument (default `True`); when
`after_transaction and transaction.is_managed()` holds it appends
`(cls, args, kwargs)` to the queue and returns `None`, otherwise it
dispatches immediately through the Celery base class and returns that
result.  `PostCommitTaskMiddleware.process_exception` assigns a fresh
empty list to the queue attribute; `process_response` loops
`while len(queue) > 0`, pops the LAST element (`list.pop()`), and
re-submits it with `after_transaction=False`, then returns the response.

Shallow embedding choices:
* Python values appearing in arguments are modelled by `PyVal`;
  keyword-argument dicts by association lists `Kwargs` with
  `popKw`/`eraseKey`/`lookupKey` mirroring `dict.pop`.
* The thread-local attribute is `TaskQueueAttr := Option (List QItem)`;
  `none` means the attribute was never set in the current thread, so
  reading it raises `AttributeError` (modelled by `Except.error ()` in
  `apply_async` and by `MwResult.attrError` in `process_response`).
* The external Celery dispatch capability is a parameter
  `dres : Nat → Args → Kwargs → PyVal`; each call to it is recorded as a
  `DispatchCall`.
* `transaction.is_managed()` is the boolean parameter `im`.
* The `while` loop of `process_response` is run with explicit fuel;
  theorems show fuel equal to the queue length always suffices, which is
  the termination argument.
-/

/-- Opaque Python values that can occur in task arguments. -/
inductive PyVal where
  | bool (b : Bool)
  | nat (n : Nat)
  | str (s : String)
deriving DecidableEq

/-- Python truthiness, used by `after_transaction and transaction.is_managed()`. -/
def truthy : PyVal → Bool
  | .bool b => b
  | .nat n => n != 0
  | .str s => s != ""

/-- Positional arguments of a task submission. -/
abbrev Args := List PyVal

/-- Keyword arguments, modelled as an association list (a Python dict). -/
abbrev Kwargs := List (String × PyVal)

/-- First value bound to a key, as in a dict lookup. -/
def lookupKey (k : String) : Kwargs → Option PyVal
  | [] => none
  | (k', v) :: rest => if k' = k then some v else lookupKey k rest

/-- Remove every binding of a key, as `dict.pop` removes the key. -/
def eraseKey (k : String) : Kwargs → Kwargs
  | [] => []
  | (k', v) :: rest => if k' = k then eraseKey k rest else (k', v) :: eraseKey k rest

/-- Model of `kwargs.pop(k, default)`: the value (or default) together with
the remaining keyword arguments. -/
def popKw (k : String) (default : PyVal) (kw : Kwargs) : PyVal × Kwargs :=
  match lookupKey k kw with
  | some v => (v, eraseKey k kw)
  | none => (default, kw)

/-- One entry of `_thread_data.task_queue`: the tuple `(cls, args, kwargs)`
appended on line 60, with task classes named by `Nat`. -/
structure QItem where
  cls : Nat
  args : Args
  kwargs : Kwargs
deriving DecidableEq

/-- A call made to the external Celery dispatch capability
(`super().apply_async`). -/
structure DispatchCall where
  cls : Nat
  args : Args
  kwargs : Kwargs
deriving DecidableEq

/-- The thread-local `task_queue` attribute; `none` when the attribute was
never set in the current thread (only the importing thread runs line 10). -/
abbrev TaskQueueAttr := Option (List QItem)

/-- Result of one `apply_async` call: the new queue attribute, the dispatch
calls made, and the Python return value (`none` models returning `None`). -/
structure ApplyResult where
  tq : TaskQueueAttr
  calls : List DispatchCall
  ret : Option PyVal
deriving DecidableEq

/-- Embedding of `PostCommitTask.apply_async` (lines 52-62).  `dres` is the
external dispatch capability's result function, `im` the current value of
`transaction.is_managed()`.  `Except.error ()` is the `AttributeError`
raised by `_thread_data.task_queue.append` on an uninitialised thread. -/
def apply_async (dres : Nat → Args → Kwargs → PyVal) (im : Bool) (cls : Nat)
    (args : Args) (kwargs : Kwargs) (tq : TaskQueueAttr) :
    Except Unit ApplyResult :=
  let p := popKw "after_transaction" (PyVal.bool true) kwargs
  let defer_task := truthy p.1 && im
  if defer_task then
    match tq with
    | none => Except.error ()
    | some q => Except.ok ⟨some (q ++ [⟨cls, args, p.2⟩]), [], none⟩
  else
    Except.ok ⟨tq, [⟨cls, args, p.2⟩], some (dres cls args p.2)⟩

/-- Embedding of `PostCommitTaskMiddleware.process_exception` (lines 75-76):
assigns a fresh empty list to the attribute (an assignment that succeeds
even on an uninitialised thread) and makes no dispatch calls. -/
def process_exception (_tq : TaskQueueAttr) : TaskQueueAttr × List DispatchCall :=
  (some [], [])

/-- Outcome of `process_response`: normal return with the final queue, the
dispatch calls made and the returned response; an `AttributeError`; or fuel
exhaustion of the modelled `while` loop. -/
inductive MwResult where
  | ok (tq : List QItem) (calls : List DispatchCall) (resp : PyVal)
  | attrError
  | outOfFuel
deriving DecidableEq

/-- The `while len(queue) > 0` loop of `process_response` (lines 79-81):
pop the LAST element (`list.pop()`), re-submit it with
`after_transaction=False` prepended to its stored kwargs, and continue on
the queue state that call leaves behind. -/
def response_go (dres : Nat → Args → Kwargs → PyVal) (im : Bool) (resp : PyVal) :
    Nat → List QItem → List DispatchCall → MwResult
  | _, [], acc => MwResult.ok [] acc resp
  | 0, _ :: _, _ => MwResult.outOfFuel
  | fuel + 1, a :: as, acc =>
    let item := (a :: as).getLast (List.cons_ne_nil a as)
    match apply_async dres im item.cls item.args
        (("after_transaction", PyVal.bool false) :: item.kwargs)
        (some ((a :: as).dropLast)) with
    | Except.error _ => MwResult.attrError
    | Except.ok r =>
      match r.tq with
      | none => MwResult.attrError
      | some q2 => response_go dres im resp fuel q2 (acc ++ r.calls)

/-- Embedding of `PostCommitTaskMiddleware.process_response` (lines 78-83):
reading `len(_thread_data.task_queue)` on an uninitialised thread raises
`AttributeError`; otherwise the drain loop runs and `response` is returned. -/
def process_response (dres : Nat → Args → Kwargs → PyVal) (im : Bool)
    (resp : PyVal) (fuel : Nat) (tq : TaskQueueAttr) : MwResult :=
  match tq with
  | none => MwResult.attrError
  | some q => response_go dres im resp fuel q []

/-- The dispatch call the drain loop makes for one stored queue item. -/
def itemCall (item : QItem) : DispatchCall :=
  ⟨item.cls, item.args, eraseKey "after_transaction" item.kwargs⟩

/-- All dispatch calls produced by draining a queue: the loop pops from the
end, so the stored order is reversed. -/
def drainCalls (q : List QItem) : List DispatchCall :=
  q.reverse.map itemCall

/-- One task submission: the `is_managed` state at call time, the task
class, and its arguments. -/
structure Submission where
  im : Bool
  cls : Nat
  args : Args
  kwargs : Kwargs

/-- Run a sequence of `apply_async` calls against an initialised queue,
returning the final queue contents. -/
def submitMany (dres : Nat → Args → Kwargs → PyVal) :
    List Submission → List QItem → List QItem
  | [], q => q
  | s :: rest, q =>
    match apply_async dres s.im s.cls s.args s.kwargs (some q) with
    | Except.error _ => submitMany dres rest q
    | Except.ok r => submitMany dres rest (r.tq.getD q)

/-- A concrete dispatch-result function used in closed statements. -/
def dres0 : Nat → Args → Kwargs → PyVal := fun _ _ _ => PyVal.nat 0

theorem lookupKey_eraseKey (k : String) (kw : Kwargs) :
    lookupKey k (eraseKey k kw) = none := by
  induction kw with
  | nil => rfl
  | cons p rest ih =>
    obtain ⟨k', v⟩ := p
    by_cases h : k' = k
    · simp [eraseKey, h, ih]
    · simp [eraseKey, lookupKey, h, ih]

theorem lookupKey_popKw_snd (k : String) (d : PyVal) (kw : Kwargs) :
    lookupKey k (popKw k d kw).2 = none := by
  unfold popKw
  cases h : lookupKey k kw with
  | none => simp [h]
  | some v => simp [lookupKey_eraseKey]

theorem apply_async_after_false (dres : Nat → Args → Kwargs → PyVal)
    (im : Bool) (item : QItem) (tq : TaskQueueAttr) :
    apply_async dres im item.cls item.args
      (("after_transaction", PyVal.bool false) :: item.kwargs) tq =
      Except.ok ⟨tq, [itemCall item],
        some (dres item.cls item.args (eraseKey "after_transaction" item.kwargs))⟩ := by
  simp [apply_async, popKw, lookupKey, eraseKey, truthy, itemCall]

theorem response_go_nil (dres : Nat → Args → Kwargs → PyVal) (im : Bool)
    (resp : PyVal) (fuel : Nat) (acc : List DispatchCall) :
    response_go dres im resp fuel [] acc = MwResult.ok [] acc resp := by
  cases fuel <;> rfl

theorem reverse_eq_getLast_cons (q : List QItem) (h : q ≠ []) :
    q.reverse = q.getLast h :: q.dropLast.reverse := by
  conv_lhs => rw [← List.dropLast_append_getLast h]
  simp

theorem response_go_spec (dres : Nat → Args → Kwargs → PyVal) (im : Bool)
    (resp : PyVal) :
    ∀ fuel q acc, List.length q ≤ fuel →
      response_go dres im resp fuel q acc =
        MwResult.ok [] (acc ++ q.reverse.map itemCall) resp := by
  intro fuel
  induction fuel with
  | zero =>
    intro q acc h
    have hq : q = [] := List.eq_nil_of_length_eq_zero (Nat.le_zero.mp h)
    subst hq
    simp [response_go_nil]
  | succ n ih =>
    intro q acc h
    match q with
    | [] => simp [response_go_nil]
    | a :: as =>
      have hstep : response_go dres im resp (n + 1) (a :: as) acc =
          response_go dres im resp n ((a :: as).dropLast)
            (acc ++ [itemCall ((a :: as).getLast (List.cons_ne_nil a as))]) := by
        simp [response_go, apply_async_after_false]
      have hlen : List.length ((a :: as).dropLast) ≤ n := by
        have := h
        simp [List.length_dropLast] at this ⊢
        omega
      rw [hstep, ih _ _ hlen]
      rw [reverse_eq_getLast_cons (a :: as) (List.cons_ne_nil a as)]
      simp

/-- Claim C1 (code bug witness): with the transaction managed, submit task 1
then task 2 deferred; the queue stores them in submission order, but
`process_response` pops with `list.pop()` from the END, so it dispatches
task 2 before task 1 — LIFO, not the FIFO the spec mandates. -/
theorem C1_lifo_dispatch :
    submitMany dres0 [⟨true, 1, [PyVal.nat 1], []⟩, ⟨true, 2, [PyVal.nat 2], []⟩] [] =
      [⟨1, [PyVal.nat 1], []⟩, ⟨2, [PyVal.nat 2], []⟩] ∧
    process_response dres0 true (PyVal.nat 0) 2
      (some [⟨1, [PyVal.nat 1], []⟩, ⟨2, [PyVal.nat 2], []⟩]) =
      MwResult.ok [] [⟨2, [PyVal.nat 2], []⟩, ⟨1, [PyVal.nat 1], []⟩] (PyVal.nat 0) ∧
    ([⟨2, [PyVal.nat 2], []⟩, ⟨1, [PyVal.nat 1], []⟩] : List DispatchCall) ≠
      [⟨1, [PyVal.nat 1], []⟩, ⟨2, [PyVal.nat 2], []⟩] := by
  decide

/-- Claim C2 counterexample: on a thread whose queue attribute was never
initialised (`none`), a deferred submission (default `after_transaction`,
transaction managed) raises `AttributeError` at
`_thread_data.task_queue.append` — nothing is appended and `None` is not
returned — refuting the unconditional claim. -/
theorem C2_uninitialized_counterexample :
    apply_async dres0 true 1 [PyVal.nat 3] [] none = Except.error () ∧
    apply_async dres0 true 1 [PyVal.nat 3] [] none ≠
      Except.ok ⟨some [⟨1, [PyVal.nat 3], []⟩], [], none⟩ :=
  ⟨rfl, fun h => Except.noConfusion h⟩

/-- Claim C2 amended: when `after_transaction` (default true when absent) is
truthy and the transaction is managed, `apply_async` in a context whose
queue attribute is initialised appends the work item to the queue, makes no
dispatch call, and returns `None`; in a never-initialised context the same
submission raises `AttributeError`, appending and dispatching nothing. -/
theorem C2_deferred_enqueue_amended (dres : Nat → Args → Kwargs → PyVal)
    (cls : Nat) (args : Args) (kwargs : Kwargs) (q : List QItem)
    (h : truthy (popKw "after_transaction" (PyVal.bool true) kwargs).1 = true) :
    apply_async dres true cls args kwargs (some q) =
      Except.ok ⟨some (q ++ [⟨cls, args,
        (popKw "after_transaction" (PyVal.bool true) kwargs).2⟩]), [], none⟩ ∧
    apply_async dres true cls args kwargs none = Except.error () := by
  constructor <;> simp [apply_async, h]

/-- Claim C2 amended witness: a concrete deferred submission with
`after_transaction` absent (so the default true applies). -/
theorem C2_deferred_enqueue_amended_witness :
    truthy (popKw "after_transaction" (PyVal.bool true) ([] : Kwargs)).1 = true ∧
    (apply_async dres0 true 1 [PyVal.nat 3] [] (some []) =
      Except.ok ⟨some [⟨1, [PyVal.nat 3], []⟩], [], none⟩ ∧
     apply_async dres0 true 1 [PyVal.nat 3] [] none = Except.error ()) :=
  ⟨by decide, C2_deferred_enqueue_amended dres0 1 [PyVal.nat 3] [] [] (by decide)⟩

/-- Claim C3: when `after_transaction` is falsy or the transaction is not
managed, `apply_async` dispatches immediately exactly once, leaves the queue
attribute untouched, and returns the dispatch capability's result. -/
theorem C3_immediate_dispatch (dres : Nat → Args → Kwargs → PyVal) (im : Bool)
    (cls : Nat) (args : Args) (kwargs : Kwargs) (tq : TaskQueueAttr)
    (h : truthy (popKw "after_transaction" (PyVal.bool true) kwargs).1 = false ∨
      im = false) :
    apply_async dres im cls args kwargs tq =
      Except.ok ⟨tq,
        [⟨cls, args, (popKw "after_transaction" (PyVal.bool true) kwargs).2⟩],
        some (dres cls args (popKw "after_transaction" (PyVal.bool true) kwargs).2)⟩ := by
  rcases h with h | h <;> simp [apply_async, h]

/-- Claim C3 witness: a concrete submission with no transaction managed. -/
theorem C3_immediate_dispatch_witness :
    (truthy (popKw "after_transaction" (PyVal.bool true) ([] : Kwargs)).1 = false ∨
      (false : Bool) = false) ∧
    apply_async dres0 false 2 [] [] (some []) =
      Except.ok ⟨some [], [⟨2, [], []⟩], some (PyVal.nat 0)⟩ :=
  ⟨by decide, C3_immediate_dispatch dres0 false 2 [] [] (some []) (by decide)⟩

/-- Claim C4: `process_exception` empties the queue with no dispatch calls,
is idempotent on the already-empty queue, and a later `process_response` on
the emptied queue dispatches nothing. -/
theorem C4_failure_discards : ∀ (dres : Nat → Args → Kwargs → PyVal)
    (im : Bool) (resp : PyVal) (fuel : Nat) (tq : TaskQueueAttr),
    process_exception tq = (some [], []) ∧
    process_exception (process_exception tq).1 = (some [], []) ∧
    process_response dres im resp fuel (process_exception tq).1 =
      MwResult.ok [] [] resp := by
  intro dres im resp fuel tq
  refine ⟨rfl, rfl, ?_⟩
  simp [process_exception, process_response, response_go_nil]

/-- Claim C5: re-submitting a drained item with `after_transaction=False`
prepended (exactly the loop-body call of `process_response`) always takes
the immediate-dispatch branch, even when the transaction is still managed:
one dispatch call, queue unchanged, never re-enqueued. -/
theorem C5_no_redefer : ∀ (dres : Nat → Args → Kwargs → PyVal) (im : Bool)
    (item : QItem) (q : List QItem),
    apply_async dres im item.cls item.args
      (("after_transaction", PyVal.bool false) :: item.kwargs) (some q) =
      Except.ok ⟨some q, [itemCall item],
        some (dres item.cls item.args (eraseKey "after_transaction" item.kwargs))⟩ := by
  intro dres im item q
  exact apply_async_after_false dres im item (some q)

/-- Claim C6 counterexample: on a thread whose queue attribute was never
initialised (`none`), `process_response` raises `AttributeError` at
`len(_thread_data.task_queue)` and does not return the response, refuting
the claim that it returns every response value unchanged. -/
theorem C6_uninitialized_counterexample :
    process_response dres0 true (PyVal.str "r") 3 none = MwResult.attrError ∧
    process_response dres0 true (PyVal.str "r") 3 none ≠
      MwResult.ok [] [] (PyVal.str "r") := by
  decide

/-- Claim C6 amended: in a context whose queue attribute is initialised,
and given enough fuel for its loop (queue length suffices), `process_response`
returns the response value unchanged; in a never-initialised context it
raises `AttributeError` instead of returning the response. -/
theorem C6_response_passthrough_amended (dres : Nat → Args → Kwargs → PyVal)
    (im : Bool) (resp : PyVal) (fuel : Nat) (q : List QItem)
    (h : List.length q ≤ fuel) :
    process_response dres im resp fuel (some q) =
      MwResult.ok [] (drainCalls q) resp ∧
    process_response dres im resp fuel none = MwResult.attrError := by
  refine ⟨?_, rfl⟩
  show response_go dres im resp fuel q [] = _
  rw [response_go_spec dres im resp fuel q [] h]
  simp [drainCalls]

/-- Claim C6 amended witness: a concrete one-item queue and response value. -/
theorem C6_response_passthrough_amended_witness :
    List.length [(⟨5, [PyVal.nat 9], []⟩ : QItem)] ≤ 3 ∧
    (process_response dres0 true (PyVal.str "resp") 3
      (some [⟨5, [PyVal.nat 9], []⟩]) =
      MwResult.ok [] (drainCalls [⟨5, [PyVal.nat 9], []⟩]) (PyVal.str "resp") ∧
     process_response dres0 true (PyVal.str "resp") 3 none = MwResult.attrError) :=
  ⟨by decide,
    C6_response_passthrough_amended dres0 true (PyVal.str "resp") 3
      [⟨5, [PyVal.nat 9], []⟩] (by decide)⟩

/-- Claim C7 counterexample: in a context whose queue attribute was never
initialised (`none`), `process_response` raises `AttributeError` instead of
being a no-op that returns the response, refuting the claim as stated. -/
theorem C7_uninitialized_counterexample :
    process_response dres0 true (PyVal.nat 7) 5 none = MwResult.attrError ∧
    process_response dres0 true (PyVal.nat 7) 5 none ≠
      MwResult.ok [] [] (PyVal.nat 7) := by
  decide

/-- Claim C7 amended: on an initialised empty queue both hooks are no-ops
(no dispatch calls, no error, the response passes through); on a context
whose queue was never initialised, `process_exception` still succeeds and
initialises the queue to empty, but `process_response` raises
`AttributeError`. -/
theorem C7_empty_queue_noop : ∀ (dres : Nat → Args → Kwargs → PyVal)
    (im : Bool) (resp : PyVal) (fuel : Nat),
    process_exception (some []) = (some [], []) ∧
    process_response dres im resp fuel (some []) = MwResult.ok [] [] resp ∧
    process_exception none = (some [], []) ∧
    process_response dres im resp fuel none = MwResult.attrError := by
  intro dres im resp fuel
  refine ⟨rfl, ?_, rfl, rfl⟩
  simp [process_response, response_go_nil]

/-- Claim C8: starting from the initial empty queue, after any sequence of
submissions, either hook leaves the queue empty when it returns:
`process_exception` resets it, and `process_response` (run to completion)
ends with the empty queue. -/
theorem C8_queue_empty_after_resolution : ∀ (dres : Nat → Args → Kwargs → PyVal)
    (im : Bool) (subs : List Submission) (resp : PyVal),
    (process_exception (some (submitMany dres subs []))).1 = some [] ∧
    process_response dres im resp (List.length (submitMany dres subs []))
      (some (submitMany dres subs [])) =
      MwResult.ok [] (drainCalls (submitMany dres subs [])) resp := by
  intro dres im subs resp
  refine ⟨rfl, ?_⟩
  show response_go dres im resp _ _ [] = _
  rw [response_go_spec dres im resp _ _ [] (Nat.le_refl _)]
  simp [drainCalls]

/-- Claim C9: the drain loop terminates for every finite queue: fuel equal
to the queue length always completes (never `outOfFuel`), the final queue is
empty, and exactly one dispatch call is made per queued item (no iteration
re-appends). -/
theorem C9_drain_terminates : ∀ (dres : Nat → Args → Kwargs → PyVal)
    (im : Bool) (resp : PyVal) (q : List QItem),
    process_response dres im resp (List.length q) (some q) =
      MwResult.ok [] (drainCalls q) resp ∧
    List.length (drainCalls q) = List.length q := by
  intro dres im resp q
  constructor
  · show response_go dres im resp _ _ [] = _
    rw [response_go_spec dres im resp _ _ [] (Nat.le_refl _)]
    simp [drainCalls]
  · simp [drainCalls]

/-- Claim C10: `apply_async` strips the `after_transaction` key before
either path: every dispatch call it makes carries kwargs without that key,
and every item it adds to the queue stores kwargs without that key. -/
theorem C10_option_stripped : ∀ (dres : Nat → Args → Kwargs → PyVal)
    (im : Bool) (cls : Nat) (args : Args) (kwargs : Kwargs) (q : List QItem)
    (r : ApplyResult), apply_async dres im cls args kwargs (some q) = Except.ok r →
    (∀ c ∈ r.calls, lookupKey "after_transaction" c.kwargs = none) ∧
    (∀ item ∈ r.tq.getD [], item ∈ q ∨
      lookupKey "after_transaction" item.kwargs = none) := by
  intro dres im cls args kwargs q r hr
  unfold apply_async at hr
  by_cases hd : truthy (popKw "after_transaction" (PyVal.bool true) kwargs).1 && im
  · simp only [hd, if_true] at hr
    cases hr
    constructor
    · intro c hc
      simp at hc
    · intro item hitem
      simp at hitem
      rcases hitem with hitem | hitem
      · exact Or.inl hitem
      · subst hitem
        exact Or.inr (lookupKey_popKw_snd "after_transaction" (PyVal.bool true) kwargs)
  · simp only [hd, if_false, Bool.false_eq_true] at hr
    cases hr
    constructor
    · intro c hc
      simp at hc
      subst hc
      exact lookupKey_popKw_snd "after_transaction" (PyVal.bool true) kwargs
    · intro item hitem
      exact Or.inl hitem

/-- Claim C10 witness: a concrete immediate submission whose kwargs carry
the `after_transaction` key plus one ordinary key; the dispatched call keeps
only the ordinary key. -/
theorem C10_option_stripped_witness :
    apply_async dres0 false 1 []
      [("after_transaction", PyVal.bool true), ("x", PyVal.nat 5)] (some []) =
      Except.ok ⟨some [], [⟨1, [], [("x", PyVal.nat 5)]⟩], some (PyVal.nat 0)⟩ ∧
    ((∀ c ∈ (⟨some [], [⟨1, [], [("x", PyVal.nat 5)]⟩],
        some (PyVal.nat 0)⟩ : ApplyResult).calls,
      lookupKey "after_transaction" c.kwargs = none) ∧
     (∀ item ∈ (⟨some [], [⟨1, [], [("x", PyVal.nat 5)]⟩],
        some (PyVal.nat 0)⟩ : ApplyResult).tq.getD [],
      item ∈ ([] : List QItem) ∨
        lookupKey "after_transaction" item.kwargs = none)) :=
  ⟨rfl, C10_option_stripped dres0 false 1 []
    [("after_transaction", PyVal.bool true), ("x", PyVal.nat 5)] []
    ⟨some [], [⟨1, [], [("x", PyVal.nat 5)]⟩], some (PyVal.nat 0)⟩ rfl⟩
